import Mathlib

/-!
Verification of the core logic of `streamlit_app.py` (the TF evidence-item
dashboard): the row normalizer's progress clamping, the status-indicator
classifier `calc_indicator`, the risk-first sorting used by `main`, and the
aggregation/report composition of `generate_official_report`.

Modelling conventions (shallow embedding of the Python source):
* A spreadsheet row (after `load_data`) is a `Row` record.  All text cells are
  `String`s; `진행률` (progress) is an `Int` (the column is normalized with
  `astype(int)`); `마감일` (deadline) is `Option Int`, a calendar date counted
  in days since the 1970-01-01 epoch, with `none` standing for pandas `NaT`
  (absent / unparseable date).  `표시등` (indicator) is the derived glyph
  column that `main` stores back into the frame.
* `date.today()` / `pd.Timestamp.today().normalize()` is an explicit `today`
  parameter (epoch day number).
* Python `str.strip()` is modelled by `py_strip`; Python string order
  (codepoint lexicographic, used by pandas when sorting group keys) is
  modelled by `str_le`.
* pandas' stable multi-key `sort_values` (np.lexsort) and the sorted group
  keys of `groupby` are modelled with a structural stable insertion sort
  `insertion_sort`, proved sorted, permuting, and stable below.
* The PDF canvas of `generate_official_report` is modelled as the list of
  text lines written by `write_line`, in order; coordinates, fonts and page
  breaks carry no information about the text content and are dropped.
-/

namespace TF

/-- A canonical spreadsheet row as produced by `load_data` (header
disambiguation and column synthesis already applied).  Field names mirror the
Korean column names of the source: `area` = 평가영역, `crit` = 평가준거,
`main_content` = 보고서 주요내용, `example_doc` = 제출자료(예시),
`owner` = 담당자, `status` = 진행상태, `progress` = 진행률,
`deadline` = 마감일, `indicator` = 표시등. -/
structure Row where
  row_id : Nat
  area : String
  crit : String
  main_content : String
  example_doc : String
  owner : String
  status : String
  progress : Int
  deadline : Option Int
  indicator : String
deriving Repr, DecidableEq

/-- Python `str.strip()`: drop leading and trailing whitespace characters. -/
def py_strip (s : String) : String :=
  ⟨((s.data.dropWhile Char.isWhitespace).reverse.dropWhile Char.isWhitespace).reverse⟩

/-- The four danger-state labels of `calc_indicator`
(`danger_states = ["중단", "이슈", "문제", "보류"]`). -/
def danger_states : List String := ["중단", "이슈", "문제", "보류"]

/-- The two warning-state labels of `calc_indicator`
(`warning_states = ["지연", "늦음"]`). -/
def warning_states : List String := ["지연", "늦음"]

/-- Rule 1 condition of `calc_indicator`:
`due_date and due_date < today and progress < 100` (a `date` value is always
truthy in Python, so the first conjunct is presence of the deadline). -/
def overdue_rule (due_date : Option Int) (today progress : Int) : Bool :=
  match due_date with
  | some d => decide (d < today) && decide (progress < 100)
  | none => false

/-- Rule 5 condition of `calc_indicator`:
`due_date and 0 <= (due_date - today).days <= 7 and progress < 100`. -/
def due_soon_rule (due_date : Option Int) (today progress : Int) : Bool :=
  match due_date with
  | some d => decide (0 ≤ d - today) && decide (d - today ≤ 7) && decide (progress < 100)
  | none => false

/-- Model of `calc_indicator(row)` from `streamlit_app.py`, with `date.today()` passed
explicitly.  The Python function re-parses a string deadline, but after
`load_data` the `마감일` column holds only `Timestamp`/`NaT`, and `NaT` is not
a `pd.Timestamp` instance, so `due_date` is exactly our `Option Int`. -/
def calc_indicator (today : Int) (row : Row) : String :=
  if overdue_rule row.deadline today row.progress then "🔴"
  else if py_strip row.owner = "" then "🔴"
  else if py_strip row.status ∈ danger_states then "🔴"
  else if row.progress ≤ 30 then "🔴"
  else if due_soon_rule row.deadline today row.progress then "🟡"
  else if 30 < row.progress ∧ row.progress ≤ 70 then "🟡"
  else if py_strip row.status ∈ warning_states then "🟡"
  else "🔵"

theorem overdue_rule_none (t p : Int) : overdue_rule none t p = false := rfl

theorem due_soon_rule_none (t p : Int) : due_soon_rule none t p = false := rfl

theorem overdue_rule_some (d t p : Int) :
    overdue_rule (some d) t p = (decide (d < t) && decide (p < 100)) := rfl

theorem due_soon_rule_some (d t p : Int) :
    due_soon_rule (some d) t p =
      (decide (0 ≤ d - t) && decide (d - t ≤ 7) && decide (p < 100)) := rfl

theorem py_strip_empty : py_strip "" = "" := rfl

theorem py_strip_delayed : py_strip "지연" = "지연" := rfl

/-- Any row whose stripped owner is empty classifies `🔴`: either the overdue
rule (rule 1) fires, which also returns `🔴`, or control reaches the
empty-owner rule (rule 2). -/
theorem strip_owner_empty_risk (today : Int) (r : Row)
    (ho : py_strip r.owner = "") : calc_indicator today r = "🔴" := by
  unfold calc_indicator
  by_cases h1 : overdue_rule r.deadline today r.progress = true
  · simp [h1]
  · simp [h1, ho]

/-- The label under which `generate_official_report` groups a row's owner
cell: `by_owner["담당자"].fillna("").replace("", "미지정")` relabels exactly
the empty string to `"미지정"` and leaves every other raw cell value as the
group key. -/
def owner_key (s : String) : String := if s = "" then "미지정" else s

/-- Claim C1: the classifier is an ordered decision list in which the
`progress <= 30` RISK rule (rule 4) is checked before the delayed/late
WARNING rule (rule 7): every item with `progress = 25`, `status = "지연"`,
a non-empty stripped owner and an absent deadline classifies `🔴` (RISK),
not `🟡` (WARNING). -/
theorem calc_indicator_rule4_before_rule7 (today : Int) (r : Row)
    (hp : r.progress = 25) (hs : r.status = "지연")
    (ho : py_strip r.owner ≠ "") (hd : r.deadline = none) :
    calc_indicator today r = "🔴" ∧ calc_indicator today r ≠ "🟡" := by
  have h : calc_indicator today r = "🔴" := by
    simp [calc_indicator, hp, hs, hd, overdue_rule_none, ho, py_strip_delayed,
      danger_states]
  exact ⟨h, by simp [h]⟩

/-- Claim C1 witness: a concrete such item (owner `"김"`, today = epoch day 0). -/
theorem calc_indicator_rule4_before_rule7_witness :
    calc_indicator 0 ⟨0, "", "", "", "", "김", "지연", 25, none, ""⟩ = "🔴" ∧
    calc_indicator 0 ⟨0, "", "", "", "", "김", "지연", 25, none, ""⟩ ≠ "🟡" :=
  calc_indicator_rule4_before_rule7 0 _ rfl rfl (by decide) rfl

/-- Claim C4: the classifier returns `🔴` (RISK) for every item whose stripped
owner field is empty, regardless of all other fields. -/
theorem calc_indicator_empty_owner_risk (today : Int) (r : Row)
    (ho : py_strip r.owner = "") : calc_indicator today r = "🔴" :=
  strip_owner_empty_risk today r ho

/-- Claim C4 witness: empty owner forces RISK even with `progress = 100` and a
deadline far in the future (epoch day 10000, today = day 0). -/
theorem calc_indicator_empty_owner_risk_witness :
    calc_indicator 0 ⟨0, "", "", "", "", "", "", 100, some 10000, ""⟩ = "🔴" :=
  calc_indicator_empty_owner_risk 0 _ rfl

/-- Claim C5: the 7-day due-soon window of WARNING rule 5 is inclusive at both
ends: an item whose deadline is exactly `today + 7`, with `progress = 50`,
empty status and a non-empty stripped owner, classifies `🟡` (WARNING). -/
theorem calc_indicator_due_in_seven_warning (today : Int) (r : Row)
    (hd : r.deadline = some (today + 7)) (hp : r.progress = 50)
    (hs : r.status = "") (ho : py_strip r.owner ≠ "") :
    calc_indicator today r = "🟡" := by
  have h1 : ¬ (today + 7 < today) := by omega
  have h2 : (0 : Int) ≤ today + 7 - today := by omega
  have h3 : today + 7 - today ≤ 7 := by omega
  simp [calc_indicator, hd, hp, hs, ho, overdue_rule_some, due_soon_rule_some,
    py_strip_empty, danger_states, warning_states, h1, h2, h3]

/-- Claim C5 witness: deadline = epoch day 7, today = day 0, owner `"김"`. -/
theorem calc_indicator_due_in_seven_warning_witness :
    calc_indicator 0 ⟨0, "", "", "", "", "김", "", 50, some 7, ""⟩ = "🟡" :=
  calc_indicator_due_in_seven_warning 0 _ rfl rfl rfl (by decide)

/-- Claim C10: a row whose owner cell is non-empty but whitespace-only classifies
`🔴` (the classifier strips the owner before the emptiness check), yet the
report's owner grouping does not relabel it to `"미지정"`: the relabeling
matches only the exactly-empty string, so the raw whitespace cell value
remains the group key. -/
theorem whitespace_owner_risk_but_not_unassigned (today : Int) (r : Row)
    (h0 : r.owner ≠ "") (hw : py_strip r.owner = "") :
    calc_indicator today r = "🔴" ∧
    owner_key r.owner = r.owner ∧ owner_key r.owner ≠ "미지정" := by
  have hok : owner_key r.owner = r.owner := if_neg h0
  refine ⟨strip_owner_empty_risk today r hw, hok, ?_⟩
  rw [hok]
  intro h
  rw [h] at hw
  exact absurd hw (by decide)

/-- Claim C10 witness: a single-space owner cell, today = day 0. -/
theorem whitespace_owner_risk_but_not_unassigned_witness :
    calc_indicator 0 ⟨0, "", "", "", "", " ", "", 100, none, ""⟩ = "🔴" ∧
    owner_key " " = " " ∧ owner_key " " ≠ "미지정" :=
  whitespace_owner_risk_but_not_unassigned 0
    ⟨0, "", "", "", "", " ", "", 100, none, ""⟩ (by decide) rfl

/-- The progress normalization pipeline of `load_data` (lines 80–85):
`pd.to_numeric(df["진행률"], errors="coerce").fillna(0).clip(0, 100).astype(int)`.
The numeric parse is represented by the `Option ℚ` input (`none` = coerced NaN
for non-numeric input); `.fillna(0)` is `Option.getD 0`; `.clip(0, 100)`
clamps below then above; `.astype(int)` truncates toward zero, which on the
clipped non-negative value equals the floor. -/
def normalize_progress (v : Option ℚ) : Int := ⌊min (max (v.getD 0) 0) 100⌋

/-- The identical re-normalization pipeline applied to edited values on save
(`main`, lines 620–626). -/
def renormalize_progress (v : Option ℚ) : Int := ⌊min (max (v.getD 0) 0) 100⌋

/-- Claim C6: for every raw progress cell, the normalized progress is an integer in
`[0, 100]`; non-numeric input yields exactly 0; numeric input below 0 clamps
to 0 and above 100 clamps to 100; and the save-time re-normalization agrees
with the load-time one. -/
theorem normalize_progress_spec (v : Option ℚ) :
    (0 ≤ normalize_progress v ∧ normalize_progress v ≤ 100)
    ∧ normalize_progress none = 0
    ∧ (∀ q : ℚ, v = some q → q < 0 → normalize_progress v = 0)
    ∧ (∀ q : ℚ, v = some q → 100 < q → normalize_progress v = 100)
    ∧ renormalize_progress v = normalize_progress v := by
  refine ⟨⟨?_, ?_⟩, ?_, ?_, ?_, rfl⟩
  · exact Int.le_floor.mpr (by push_cast; exact le_min (le_max_right _ _) (by norm_num))
  · have h : min (max (v.getD 0) 0) 100 ≤ ((100 : Int) : ℚ) := by
      push_cast
      exact min_le_right _ _
    have h2 := Int.floor_mono h
    rwa [Int.floor_intCast] at h2
  · simp [normalize_progress]
  · intro q hv hq
    subst hv
    have h1 : max q 0 = (0 : ℚ) := max_eq_right hq.le
    simp [normalize_progress, h1]
  · intro q hv hq
    subst hv
    have h0 : (0 : ℚ) ≤ q := le_trans (by norm_num) hq.le
    have h1 : max q 0 = q := max_eq_left h0
    have h2 : min q 100 = (100 : ℚ) := min_eq_right hq.le
    rw [normalize_progress]
    simp only [Option.getD_some, h1, h2]
    rw [show ((100 : ℚ)) = ((100 : Int) : ℚ) by norm_num, Int.floor_intCast]

/-- Claim C6 witness: concrete inputs — NaN (`none`), −3, 150, 55. -/
theorem normalize_progress_spec_witness :
    normalize_progress none = 0 ∧ normalize_progress (some (-3)) = 0 ∧
    normalize_progress (some 150) = 100 ∧
    (0 ≤ normalize_progress (some 55) ∧ normalize_progress (some 55) ≤ 100) :=
  ⟨(normalize_progress_spec none).2.1,
   (normalize_progress_spec (some (-3))).2.2.1 (-3) rfl (by norm_num),
   (normalize_progress_spec (some 150)).2.2.2.1 150 rfl (by norm_num),
   (normalize_progress_spec (some 55)).1⟩

/-- Stable insertion: place `a` in front of the first element `b` of `l` with
`le a b`; used to model pandas' stable multi-key sort (`np.lexsort`), which is
what `DataFrame.sort_values` uses for a multi-column `by`. -/
def insert_le {α : Type} (le : α → α → Bool) (a : α) : List α → List α
  | [] => [a]
  | b :: l => if le a b then a :: b :: l else b :: insert_le le a l

/-- Stable insertion sort over a `Bool`-valued total preorder. -/
def insertion_sort {α : Type} (le : α → α → Bool) : List α → List α
  | [] => []
  | a :: l => insert_le le a (insertion_sort le l)

theorem insert_le_perm {α : Type} (le : α → α → Bool) (a : α) (l : List α) :
    List.Perm (insert_le le a l) (a :: l) := by
  induction l with
  | nil => rfl
  | cons b l ih =>
    rw [insert_le]
    split
    · rfl
    · exact (ih.cons b).trans (List.Perm.swap a b l)

theorem insertion_sort_perm {α : Type} (le : α → α → Bool) (l : List α) :
    List.Perm (insertion_sort le l) l := by
  induction l with
  | nil => rfl
  | cons a l ih => exact (insert_le_perm le a _).trans (ih.cons a)

theorem mem_insert_le {α : Type} (le : α → α → Bool) {a x : α} {l : List α} :
    x ∈ insert_le le a l ↔ x = a ∨ x ∈ l := by
  rw [(insert_le_perm le a l).mem_iff]
  simp

theorem pairwise_insert_le {α : Type} (le : α → α → Bool)
    (htrans : ∀ a b c, le a b = true → le b c = true → le a c = true)
    (htotal : ∀ a b, le a b = true ∨ le b a = true)
    (a : α) (l : List α) (h : l.Pairwise (fun x y => le x y = true)) :
    (insert_le le a l).Pairwise (fun x y => le x y = true) := by
  induction l with
  | nil => simp [insert_le]
  | cons b l ih =>
    rcases List.pairwise_cons.mp h with ⟨hb, hl⟩
    rw [insert_le]
    split
    case isTrue hab =>
      refine List.pairwise_cons.mpr ⟨?_, h⟩
      intro x hx
      rcases List.mem_cons.mp hx with rfl | hx
      · exact hab
      · exact htrans a b x hab (hb x hx)
    case isFalse hab =>
      have hba : le b a = true := by
        rcases htotal a b with h1 | h1
        · exact absurd h1 hab
        · exact h1
      refine List.pairwise_cons.mpr ⟨?_, ih hl⟩
      intro x hx
      rcases (mem_insert_le le).mp hx with rfl | hx
      · exact hba
      · exact hb x hx

theorem pairwise_insertion_sort {α : Type} (le : α → α → Bool)
    (htrans : ∀ a b c, le a b = true → le b c = true → le a c = true)
    (htotal : ∀ a b, le a b = true ∨ le b a = true) (l : List α) :
    (insertion_sort le l).Pairwise (fun x y => le x y = true) := by
  induction l with
  | nil => simp [insertion_sort]
  | cons a l ih => exact pairwise_insert_le le htrans htotal a _ ih

theorem filter_insert_le_neg {α : Type} (le : α → α → Bool) (p : α → Bool)
    (a : α) (l : List α) (hpa : p a = false) :
    (insert_le le a l).filter p = l.filter p := by
  induction l with
  | nil => simp [insert_le, hpa]
  | cons b l ih =>
    rw [insert_le]
    split
    · simp [List.filter_cons, hpa]
    · simp [List.filter_cons, ih]

theorem filter_insert_le_pos {α : Type} (le : α → α → Bool) (p : α → Bool)
    (a : α) (l : List α) (hpa : p a = true) :
    (∀ b ∈ l, p b = true → le a b = true) →
    (insert_le le a l).filter p = a :: l.filter p := by
  induction l with
  | nil => intro h; simp [insert_le, hpa]
  | cons b l ih =>
    intro h
    rw [insert_le]
    split
    case isTrue hab => simp [List.filter_cons, hpa]
    case isFalse hab =>
      have hpb : p b = false := by
        cases hpb : p b
        · rfl
        · exact absurd (h b (List.mem_cons_self b l) hpb) hab
      simp [List.filter_cons, hpb,
        ih (fun x hx hpx => h x (List.mem_cons_of_mem b hx) hpx)]

/-- Stability of `insertion_sort`: a predicate class whose members are
mutually `le`-related is emitted in its original relative order. -/
theorem filter_insertion_sort {α : Type} (le : α → α → Bool) (p : α → Bool)
    (hp : ∀ a b, p a = true → p b = true → le a b = true) (l : List α) :
    (insertion_sort le l).filter p = l.filter p := by
  induction l with
  | nil => rfl
  | cons a l ih =>
    rw [insertion_sort]
    cases hpa : p a
    · rw [filter_insert_le_neg le p a _ hpa, ih, List.filter_cons]
      simp [hpa]
    · rw [filter_insert_le_pos le p a _ hpa (fun b hb hpb => hp a b hpa hpb), ih,
        List.filter_cons]
      simp [hpa]

/-- The indicator rank of `main` (lines 456–458):
`indicator_rank = {"🔴": 0, "🟡": 1, "🔵": 2}`, with `fillna(3)` for any other
indicator value. -/
def indicator_rank (s : String) : Nat :=
  if s = "🔴" then 0 else if s = "🟡" then 1 else if s = "🔵" then 2 else 3

/-- Deadline comparison used as the secondary sort key: ascending on present
dates, with absent deadlines (`NaT`, `na_position="last"`) after every
present one. -/
def opt_le : Option Int → Option Int → Bool
  | some a, some b => decide (a ≤ b)
  | some _, none => true
  | none, some _ => false
  | none, none => true

/-- Lexicographic row comparison of the risk-first sort: primary key
`표시등_순위` (indicator rank), secondary key `마감일` with `NaT` last. -/
def row_le (a b : Row) : Bool :=
  decide (indicator_rank a.indicator < indicator_rank b.indicator)
  || (decide (indicator_rank a.indicator = indicator_rank b.indicator)
      && opt_le a.deadline b.deadline)

/-- Model of `filtered.sort_values(by=["표시등_순위", "마감일"], ascending=[True, True],
na_position="last")` of `main`, modelled as a stable sort by `row_le`. -/
def risk_first_sort (l : List Row) : List Row := insertion_sort row_le l

/-- The full sort key of a row (indicator rank, deadline). -/
def sort_key (r : Row) : Nat × Option Int := (indicator_rank r.indicator, r.deadline)

theorem opt_le_refl (d : Option Int) : opt_le d d = true := by
  cases d <;> simp [opt_le]

theorem opt_le_trans : ∀ a b c : Option Int,
    opt_le a b = true → opt_le b c = true → opt_le a c = true := by
  intro a b c hab hbc
  cases a <;> cases b <;> cases c <;> simp [opt_le] at hab hbc ⊢
  all_goals omega

theorem opt_le_total : ∀ a b : Option Int, opt_le a b = true ∨ opt_le b a = true := by
  intro a b
  cases a <;> cases b <;> simp [opt_le]
  all_goals omega

theorem row_le_iff (a b : Row) : row_le a b = true ↔
    (indicator_rank a.indicator < indicator_rank b.indicator
     ∨ (indicator_rank a.indicator = indicator_rank b.indicator
        ∧ opt_le a.deadline b.deadline = true)) := by
  simp [row_le, Bool.or_eq_true, Bool.and_eq_true, decide_eq_true_eq]

theorem row_le_trans : ∀ a b c : Row,
    row_le a b = true → row_le b c = true → row_le a c = true := by
  intro a b c hab hbc
  rw [row_le_iff] at hab hbc ⊢
  rcases hab with h1 | ⟨h1, hd1⟩
  · rcases hbc with h2 | ⟨h2, hd2⟩
    · exact Or.inl (by omega)
    · exact Or.inl (by omega)
  · rcases hbc with h2 | ⟨h2, hd2⟩
    · exact Or.inl (by omega)
    · exact Or.inr ⟨by omega, opt_le_trans _ _ _ hd1 hd2⟩

theorem row_le_total : ∀ a b : Row, row_le a b = true ∨ row_le b a = true := by
  intro a b
  rw [row_le_iff, row_le_iff]
  rcases Nat.lt_trichotomy (indicator_rank a.indicator) (indicator_rank b.indicator)
    with h | h | h
  · exact Or.inl (Or.inl h)
  · rcases opt_le_total a.deadline b.deadline with hd | hd
    · exact Or.inl (Or.inr ⟨h, hd⟩)
    · exact Or.inr (Or.inr ⟨h.symm, hd⟩)
  · exact Or.inr (Or.inl h)

theorem row_le_of_key_eq {a b : Row} (h : sort_key a = sort_key b) :
    row_le a b = true := by
  have h1 : indicator_rank a.indicator = indicator_rank b.indicator :=
    congrArg Prod.fst h
  have h2 : a.deadline = b.deadline := congrArg Prod.snd h
  rw [row_le_iff]
  refine Or.inr ⟨h1, ?_⟩
  rw [h2]
  exact opt_le_refl _

/-- Claim C7: the risk-first sort permutes the input, orders rows by indicator rank
(`🔴=0`, `🟡=1`, `🔵=2`, any other value `3`) as primary key and deadline
ascending (absent deadlines last) as secondary key, and is stable: rows with
equal sort keys keep their relative input order. -/
theorem risk_first_sort_spec (l : List Row) :
    (risk_first_sort l).Perm l
    ∧ (risk_first_sort l).Pairwise (fun a b =>
        indicator_rank a.indicator < indicator_rank b.indicator
        ∨ (indicator_rank a.indicator = indicator_rank b.indicator
           ∧ opt_le a.deadline b.deadline = true))
    ∧ (∀ k : Nat × Option Int,
        (risk_first_sort l).filter (fun r => sort_key r == k)
          = l.filter (fun r => sort_key r == k))
    ∧ indicator_rank "🔴" = 0 ∧ indicator_rank "🟡" = 1 ∧ indicator_rank "🔵" = 2
    ∧ (∀ s : String, s ≠ "🔴" → s ≠ "🟡" → s ≠ "🔵" → indicator_rank s = 3) := by
  refine ⟨insertion_sort_perm row_le l, ?_, ?_, rfl, rfl, rfl, ?_⟩
  · exact (pairwise_insertion_sort row_le row_le_trans row_le_total l).imp
      (fun h => (row_le_iff _ _).mp h)
  · intro k
    apply filter_insertion_sort
    intro a b hpa hpb
    have ha : sort_key a = k := by simpa using hpa
    have hb : sort_key b = k := by simpa using hpb
    exact row_le_of_key_eq (ha.trans hb.symm)
  · intro s h1 h2 h3
    simp [indicator_rank, h1, h2, h3]

/-- Claim C7 witness: the unknown-indicator rank, instantiated at `"✅"`. -/
theorem risk_first_sort_spec_witness : indicator_rank "✅" = 3 :=
  (risk_first_sort_spec []).2.2.2.2.2.2 "✅" (by decide) (by decide) (by decide)

/-- Codepoint-lexicographic comparison of character lists: the order Python
uses for `str` comparison, hence the order of pandas' sorted `groupby` keys. -/
def chars_le : List Char → List Char → Bool
  | [], _ => true
  | _ :: _, [] => false
  | a :: as, b :: bs =>
    if a.toNat < b.toNat then true
    else if b.toNat < a.toNat then false
    else chars_le as bs

/-- Python string `<=` (codepoint lexicographic). -/
def str_le (a b : String) : Bool := chars_le a.data b.data

theorem chars_le_total : ∀ l1 l2 : List Char,
    chars_le l1 l2 = true ∨ chars_le l2 l1 = true := by
  intro l1
  induction l1 with
  | nil => intro l2; left; rfl
  | cons a as ih =>
    intro l2
    cases l2 with
    | nil => right; rfl
    | cons b bs =>
      by_cases h1 : a.toNat < b.toNat
      · left; simp [chars_le, h1]
      · by_cases h2 : b.toNat < a.toNat
        · right; simp [chars_le, h2]
        · rcases ih bs with h | h
          · left; simp [chars_le, h1, h2, h]
          · right; simp [chars_le, h1, h2, h]

theorem chars_le_trans : ∀ l1 l2 l3 : List Char,
    chars_le l1 l2 = true → chars_le l2 l3 = true → chars_le l1 l3 = true := by
  intro l1
  induction l1 with
  | nil => intro l2 l3 _ _; rfl
  | cons a as ih =>
    intro l2 l3 h12 h23
    cases l2 with
    | nil => simp [chars_le] at h12
    | cons b bs =>
      cases l3 with
      | nil => simp [chars_le] at h23
      | cons c cs =>
        simp only [chars_le] at h12 h23 ⊢
        split at h12
        case isTrue hab =>
          split at h23
          case isTrue hbc => simp [show a.toNat < c.toNat by omega]
          case isFalse hbc =>
            split at h23
            case isTrue hcb => simp at h23
            case isFalse hcb => simp [show a.toNat < c.toNat by omega]
        case isFalse hab =>
          split at h12
          case isTrue hba => simp at h12
          case isFalse hba =>
            split at h23
            case isTrue hbc => simp [show a.toNat < c.toNat by omega]
            case isFalse hbc =>
              split at h23
              case isTrue hcb => simp at h23
              case isFalse hcb =>
                have hn1 : ¬ a.toNat < c.toNat := by omega
                have hn2 : ¬ c.toNat < a.toNat := by omega
                simp only [hn1, hn2, if_false]
                exact ih bs cs h12 h23

theorem str_le_trans : ∀ a b c : String,
    str_le a b = true → str_le b c = true → str_le a c = true :=
  fun a b c hab hbc => chars_le_trans a.data b.data c.data hab hbc

theorem str_le_total : ∀ a b : String, str_le a b = true ∨ str_le b a = true :=
  fun a b => chars_le_total a.data b.data

/-- Zero-padding to two digits, as in `strftime` month/day fields. -/
def pad2 (n : Int) : String := if n < 10 then "0" ++ toString n else toString n

/-- Model of `Timestamp.strftime("%Y-%m-%d")`: epoch-day number to civil date text
(the standard days-from-civil inverse; years in this data are four digits). -/
def fmt_date (z : Int) : String :=
  let z2 := z + 719468
  let era := (if 0 ≤ z2 then z2 else z2 - 146096) / 146097
  let doe := z2 - era * 146097
  let yoe := (doe - doe / 1460 + doe / 36524 - doe / 146096) / 365
  let y := yoe + era * 400
  let doy := doe - (365 * yoe + yoe / 4 - yoe / 100)
  let mp := (5 * doy + 2) / 153
  let d := doy - (153 * mp + 2) / 5 + 1
  let m := mp + (if mp < 10 then 3 else -9)
  let y2 := y + (if m ≤ 2 then 1 else 0)
  toString y2 ++ "-" ++ pad2 m ++ "-" ++ pad2 d

/-- Python `f"{x:.1f}"` on the report's non-negative statistics, idealized as
exact rational rounding to one decimal place (the claims proved below do not
depend on float tie-breaking). -/
def fmt1 (q : ℚ) : String :=
  let n : Int := ⌊q * 10 + 1 / 2⌋
  toString (n / 10) ++ "." ++ toString (n % 10)

/-- Model of `df["진행률"].mean()` over a group of rows. -/
def mean_progress (l : List Row) : ℚ :=
  (l.map (fun r => (r.progress : ℚ))).sum / l.length

/-- The due-soon condition of `generate_official_report`:
`(dates >= today) & (dates <= today + 7) & (진행률 < 100)` (`NaT` compares
false). -/
def due_soon_cond (today : Int) (r : Row) : Bool :=
  match r.deadline with
  | some d => decide (today ≤ d) && decide (d ≤ today + 7) && decide (r.progress < 100)
  | none => false

/-- The urgent-item condition (report section 2): overdue-and-unfinished, or
due within 7 days and unfinished. -/
def urgent_cond (today : Int) (r : Row) : Bool :=
  overdue_rule r.deadline today r.progress || due_soon_cond today r

/-- One line of the urgent-items list: area/criterion, title (`보고서
주요내용` falling back to `제출자료(예시)` when empty, truncated to 40
characters), owner, formatted deadline, indicator glyph, progress. -/
def render_urgent_row (r : Row) : String :=
  let title0 := if r.main_content = "" then r.example_doc else r.main_content
  let title : String := ⟨title0.data.take 40⟩
  let due_str := match r.deadline with
    | some d => fmt_date d
    | none => ""
  "- [" ++ r.area ++ "/" ++ r.crit ++ "] " ++ title ++ " / 담당: " ++ r.owner
    ++ " / 마감: " ++ due_str ++ " / " ++ r.indicator ++ " "
    ++ toString r.progress ++ "%"

/-- The trailing omission line `f"... 외 {N}건"`. -/
def omitted_line (n : Nat) : String := "... 외 " ++ toString n ++ "건"

/-- The row loop of report section 2: renders rows while `idx < max_rows`
(`max_rows = 20` in the PDF variant) and, on reaching the budget, emits the
omission line and breaks. -/
def urgent_loop (maxRows total : Nat) : Nat → List Row → List String
  | _, [] => []
  | idx, r :: rs =>
    if maxRows ≤ idx then [omitted_line (total - maxRows)]
    else render_urgent_row r :: urgent_loop maxRows total (idx + 1) rs

/-- Report section 2 (urgent items), as the list of written lines. -/
def urgent_section (today : Int) (df : List Row) : List String :=
  let urgent := df.filter (urgent_cond today)
  if urgent.isEmpty then ["- 마감 임박 또는 지연 항목이 없습니다."]
  else "- 아래 항목은 마감 7일 이내 또는 기한 경과 미완료 항목입니다."
    :: urgent_loop 20 urgent.length 0 urgent

/-- Model of `df.groupby("평가영역")` membership: rows with the given raw area cell. -/
def area_group (df : List Row) (k : String) : List Row :=
  df.filter (fun r => r.area == k)

/-- The sorted unique area keys, as pandas `groupby` produces them. -/
def area_keys (df : List Row) : List String :=
  insertion_sort str_le (df.map (fun r => r.area)).dedup

/-- Area keys re-sorted by mean progress descending
(`.mean().sort_values(ascending=False)`). -/
def area_order (df : List Row) : List String :=
  insertion_sort
    (fun a b => decide (mean_progress (area_group df b) ≤ mean_progress (area_group df a)))
    (area_keys df)

/-- Report section 3: one line per area, mean progress, descending. -/
def area_lines (df : List Row) : List String :=
  (area_order df).map (fun k =>
    "- " ++ k ++ ": 평균 진행률 " ++ fmt1 (mean_progress (area_group df k)) ++ "%")

/-- The rows of one owner group of report section 4: the grouping key is
`owner_key` of the raw cell (`fillna("").replace("", "미지정")` then
`groupby("담당자")`). -/
def owner_group (df : List Row) (k : String) : List Row :=
  df.filter (fun r => owner_key r.owner == k)

/-- The sorted unique owner-group keys, as pandas `groupby` produces them
(`groupby` sorts group keys ascending; no re-sort follows). -/
def owner_keys (df : List Row) : List String :=
  insertion_sort str_le (df.map (fun r => owner_key r.owner)).dedup

/-- Report section 4 statistics per owner, in emission order: group label,
item count (`항목수`), completed count (`완료수`), mean progress
(`평균진행률`). -/
def owner_stats (df : List Row) : List (String × Nat × Nat × ℚ) :=
  (owner_keys df).map (fun k =>
    (k, (owner_group df k).length,
     ((owner_group df k).filter (fun r => r.progress == 100)).length,
     mean_progress (owner_group df k)))

/-- Report section 4, as the list of written lines. -/
def owner_lines (df : List Row) : List String :=
  (owner_stats df).map (fun e =>
    "- " ++ e.1 ++ ": " ++ toString e.2.1 ++ "개, 완료 " ++ toString e.2.2.1
      ++ "개, 평균 진행률 " ++ fmt1 e.2.2.2 ++ "%")

/-- Model of `generate_official_report(df)` from `streamlit_app.py`, as the
ordered list of text lines written to the PDF canvas (`write_line` calls;
coordinates, fonts and page breaks dropped).  `pd.Timestamp.today()` is the
explicit `today` parameter. -/
def generate_official_report (today : Int) (df : List Row) : List String :=
  let total := df.length
  let done := if 0 < total then (df.filter (fun r => r.progress == 100)).length else 0
  let avg : ℚ := if 0 < total then mean_progress df else 0
  let red := (df.filter (fun r => r.indicator == "🔴")).length
  let yellow := (df.filter (fun r => r.indicator == "🟡")).length
  let blue := (df.filter (fun r => r.indicator == "🔵")).length
  let overdue := (df.filter (fun r => overdue_rule r.deadline today r.progress)).length
  let due_soon := (df.filter (due_soon_cond today)).length
  let head := ["대학 인증 증빙자료 준비 현황 공식 보고",
    "보고일자: " ++ fmt_date today,
    "작성부서: 혁신지원센터 / TF 운영팀",
    "1. 종합 요약 (Executive Summary)"]
  if total = 0 then head ++ ["- 현재 집계된 증빙자료 항목이 없습니다."]
  else head ++
    ["- 전체 증빙 대상 항목: " ++ toString total ++ "개",
     "- 완료된 항목: " ++ toString done ++ "개 ("
       ++ fmt1 ((done : ℚ) / (total : ℚ) * 100) ++ "%)",
     "- 평균 진행률: " ++ fmt1 avg ++ "%",
     "- 위험(🔴): " ++ toString red ++ "개 / 주의(🟡): " ++ toString yellow
       ++ "개 / 정상(🔵): " ++ toString blue ++ "개",
     "- 마감 경과(지연) 항목: " ++ toString overdue ++ "개 / 7일 이내 마감 항목: "
       ++ toString due_soon ++ "개",
     "2. 마감 임박 또는 지연 항목 현황"]
    ++ urgent_section today df
    ++ ["3. 평가영역별 진행 현황 요약"] ++ area_lines df
    ++ ["4. 담당자별 진행 현황"] ++ owner_lines df
    ++ ["5. 금주 우선 처리 권장 사항",
        "- 🔴(위험) 항목을 우선적으로 점검하고, 제출자료(예시) 및 자료링크를 보완해 주시기 바랍니다.",
        "- 마감 7일 이내 항목은 담당부서별로 내부 일정에 반영해 주시기 바랍니다.",
        "- 담당자 미지정 항목은 조속히 담당자를 지정하여 관리 공백을 줄여주시기 바랍니다.",
        "보고자: 김신명 (TF 사업단장)",
        "승인: ____________________________"]

/-- Claim C2 (amended): when the classified collection is empty (`total = 0`), the
report composer emits the header block followed by the single no-items notice
and returns early: no done-percentage line is rendered and no division is
performed (`done` is computed as 0 without dividing by `total`). -/
theorem report_empty_collection (today : Int) :
    generate_official_report today [] =
      ["대학 인증 증빙자료 준비 현황 공식 보고",
       "보고일자: " ++ fmt_date today,
       "작성부서: 혁신지원센터 / TF 운영팀",
       "1. 종합 요약 (Executive Summary)",
       "- 현재 집계된 증빙자료 항목이 없습니다."] := rfl

/-- Claim C2 counterexample: for the empty collection (today = epoch day 0) the
report is exactly the five header/notice lines, and in particular the claimed
`0.0%` done-percentage line is not rendered. -/
theorem report_empty_no_percent_line :
    generate_official_report 0 [] =
      ["대학 인증 증빙자료 준비 현황 공식 보고",
       "보고일자: 1970-01-01",
       "작성부서: 혁신지원센터 / TF 운영팀",
       "1. 종합 요약 (Executive Summary)",
       "- 현재 집계된 증빙자료 항목이 없습니다."]
    ∧ "- 완료된 항목: 0개 (0.0%)" ∉ generate_official_report 0 [] := by
  constructor
  · rfl
  · decide

theorem urgent_loop_eq (m t : Nat) : ∀ (l : List Row) (idx : Nat), idx ≤ m →
    urgent_loop m t idx l =
      (l.take (m - idx)).map render_urgent_row
        ++ (if l.length ≤ m - idx then [] else [omitted_line (t - m)]) := by
  intro l
  induction l with
  | nil => intro idx h; simp [urgent_loop]
  | cons r rs ih =>
    intro idx h
    rw [urgent_loop]
    by_cases hm : m ≤ idx
    · have h0 : m - idx = 0 := by omega
      rw [if_pos hm, h0]
      simp
    · rw [if_neg hm]
      have h2 : idx + 1 ≤ m := by omega
      rw [ih (idx + 1) h2]
      have h3 : m - idx = (m - (idx + 1)) + 1 := by omega
      rw [h3]
      simp [List.take_succ_cons, Nat.succ_le_succ_iff]

/-- Claim C8: the urgent-items list of the PDF report is capped at 20 rows: when
more than 20 items match the overdue-or-due-soon condition, exactly the first
20 matching rows are rendered, followed by a single trailing line stating how
many more were omitted (total matching minus 20). -/
theorem urgent_list_capped (today : Int) (df : List Row)
    (h : 20 < (df.filter (urgent_cond today)).length) :
    urgent_section today df =
      "- 아래 항목은 마감 7일 이내 또는 기한 경과 미완료 항목입니다."
        :: (((df.filter (urgent_cond today)).take 20).map render_urgent_row
            ++ [omitted_line ((df.filter (urgent_cond today)).length - 20)]) := by
  have hne : ¬ (df.filter (urgent_cond today)).isEmpty = true := by
    rw [List.isEmpty_iff_length_eq_zero]
    omega
  rw [urgent_section]
  rw [if_neg hne]
  rw [urgent_loop_eq 20 _ _ 0 (by omega)]
  rw [if_neg (by omega)]

/-- A concrete urgent row: due on epoch day 3, progress 50. -/
def sample_urgent_row : Row := ⟨0, "A영역", "1-1", "제목", "", "김", "", 50, some 3, "🟡"⟩

/-- Claim C8 witness: 21 identical urgent rows at today = day 0. -/
theorem urgent_list_capped_witness :
    urgent_section 0 (List.replicate 21 sample_urgent_row) =
      "- 아래 항목은 마감 7일 이내 또는 기한 경과 미완료 항목입니다."
        :: ((((List.replicate 21 sample_urgent_row).filter (urgent_cond 0)).take 20).map
              render_urgent_row
            ++ [omitted_line
                (((List.replicate 21 sample_urgent_row).filter (urgent_cond 0)).length - 20)]) :=
  urgent_list_capped 0 (List.replicate 21 sample_urgent_row) (by decide)

/-- Claim C3 (amended): the per-owner statistics section emits owners in ascending
codepoint-lexicographic order of the owner group label (the `groupby` key
sort); it is not sorted by mean progress. -/
theorem map_fst_pair {α β : Type} (f : α → β) (l : List α) :
    (l.map (fun k => (k, f k))).map (fun e => e.1) = l := by
  induction l with
  | nil => rfl
  | cons a l ih => simp only [List.map_cons, ih]

theorem owner_stats_ascending_by_label (df : List Row) :
    ((owner_stats df).map (fun e => e.1)).Pairwise (fun a b => str_le a b = true) := by
  have h := pairwise_insertion_sort str_le str_le_trans str_le_total
    (df.map (fun r => owner_key r.owner)).dedup
  have heq : (owner_stats df).map (fun e => e.1) = owner_keys df := by
    rw [owner_stats]
    exact map_fst_pair
      (fun k => ((owner_group df k).length,
        ((owner_group df k).filter (fun r => r.progress == 100)).length,
        mean_progress (owner_group df k)))
      (owner_keys df)
  rw [heq]
  exact h

def c3_row_a : Row := ⟨0, "", "", "", "", "a", "", 0, none, ""⟩

def c3_row_b : Row := ⟨1, "", "", "", "", "b", "", 100, none, ""⟩

def c3_df : List Row := [c3_row_a, c3_row_b]

/-- Claim C3 counterexample: owners `"a"` (mean progress 0) and `"b"` (mean
progress 100) are emitted in that order, so the emitted sequence of per-owner
mean progresses is not descending. -/
theorem owner_stats_not_descending_by_mean :
    ¬ (((owner_stats c3_df).map (fun e => e.2.2.2)).Pairwise
        (fun x y : ℚ => y ≤ x)) := by
  have hkeys : owner_keys c3_df = ["a", "b"] := by decide
  have hga : owner_group c3_df "a" = [c3_row_a] := by decide
  have hgb : owner_group c3_df "b" = [c3_row_b] := by decide
  have hma : mean_progress [c3_row_a] = 0 := by
    norm_num [mean_progress, c3_row_a]
  have hmb : mean_progress [c3_row_b] = 100 := by
    norm_num [mean_progress, c3_row_b]
  simp [owner_stats, hkeys, hga, hgb, hma, hmb, List.pairwise_cons]

/-- Claim C9 (amended): report owner grouping relabels exactly the empty owner cell
to `"미지정"` and otherwise uses the raw cell value (multi-name cells are not
split); consequently a named owner group `k ∉ {"", "미지정"}` contains exactly
the rows whose raw owner is `k`, while the `"미지정"` group merges the
empty-owner rows with any rows literally owned by `"미지정"`. -/
theorem owner_grouping_spec (df : List Row) (k : String) :
    owner_key "" = "미지정"
    ∧ (k ≠ "" → owner_key k = k)
    ∧ (k ≠ "" → k ≠ "미지정" →
        owner_group df k = df.filter (fun r => r.owner == k))
    ∧ owner_group df "미지정"
        = df.filter (fun r => r.owner == "" || r.owner == "미지정") := by
  refine ⟨rfl, fun h => if_neg h, fun h1 h2 => ?_, ?_⟩
  · rw [owner_group]
    apply List.filter_congr
    intro r _
    by_cases ho : r.owner = ""
    · rw [ho]
      have e1 : ("미지정" == k) = false :=
        beq_eq_false_iff_ne.mpr (fun hh => h2 hh.symm)
      have e2 : ("" == k) = false :=
        beq_eq_false_iff_ne.mpr (fun hh => h1 hh.symm)
      show ("미지정" == k) = ("" == k)
      rw [e1, e2]
    · rw [owner_key, if_neg ho]
  · rw [owner_group]
    apply List.filter_congr
    intro r _
    by_cases ho : r.owner = ""
    · rw [ho]
      rfl
    · rw [owner_key, if_neg ho]
      have e2 : (r.owner == "") = false := beq_eq_false_iff_ne.mpr ho
      rw [e2, Bool.false_or]

def c9_witness_df : List Row :=
  [⟨0, "", "", "", "", "김", "", 50, none, ""⟩,
   ⟨1, "", "", "", "", "", "", 50, none, ""⟩]

/-- Claim C9 witness: the grouping equations instantiated at a named owner `"김"`
over a collection holding one `"김"` row and one empty-owner row. -/
theorem owner_grouping_spec_witness :
    owner_group c9_witness_df "김" = c9_witness_df.filter (fun r => r.owner == "김")
    ∧ owner_group c9_witness_df "미지정"
        = c9_witness_df.filter (fun r => r.owner == "" || r.owner == "미지정") :=
  ⟨(owner_grouping_spec c9_witness_df "김").2.2.1 (by decide) (by decide),
   (owner_grouping_spec c9_witness_df "김").2.2.2⟩

def c9_df : List Row :=
  [⟨0, "", "", "", "", "", "", 50, none, ""⟩,
   ⟨1, "", "", "", "", "미지정", "", 50, none, ""⟩]

/-- Claim C9 counterexample: over a collection with one empty-owner row and one row
literally owned by `"미지정"`, the report's owner grouping produces a single
group of two rows — the empty-owner row is not counted separately from the
named owner `"미지정"`. -/
theorem empty_owner_not_counted_separately :
    (owner_stats c9_df).length = 1 ∧ (owner_group c9_df "미지정").length = 2 := by
  constructor
  · decide
  · decide

end TF
